import Mathlib

/-!
Verification development for the Smart Garden System repository.

The repository contains three Arduino sketches: the main single-zone
controller (smart_garden.cpp), a multi-zone variant, and a second
single-zone sketch (both in the unnamed file). The definitions below are
a shallow embedding of the parts the claims are about:

- the moisture percentage computation, which is the Arduino map function
  (C long arithmetic, division truncating toward zero, hence Int.tdiv)
  followed by constrain to the range 0..100;
- the three MQTT message callbacks, embedded as pure functions from a
  decoded command and the current pump state to a result record. A C
  string field that may be absent from the JSON document is an Option
  String (ArduinoJson yields a null pointer for a missing key). Where a
  callback can reach undefined behavior (strcmp on a null pointer, or
  integer division by zero), the embedding returns Option and models the
  crash as none. The milliseconds spent inside delay are recorded in the
  blockedMs field of the result, so that blocking behavior is visible.
-/

namespace SmartGarden

/-- Arduino constrain(amt, low, high): low if amt is below low, high if
amt is above high, otherwise amt. -/
def constrain (amt low high : Int) : Int :=
  if amt < low then low else if amt > high then high else amt

/-- Arduino map(x, in_min, in_max, out_min, out_max):
(x - in_min) * (out_max - out_min) / (in_max - in_min) + out_min, with C
division truncating toward zero (Int.tdiv). This is the exact-integer
model; the source computes on 32-bit long values, embedded faithfully by
map32 below, and the two agree exactly when no intermediate exceeds the
32-bit range. -/
def map (x inMin inMax outMin outMax : Int) : Int :=
  Int.tdiv ((x - inMin) * (outMax - outMin)) (inMax - inMin) + outMin

/-- The percentage computation of publishSensorData and
publishMultiSensorData: map(raw, dryValue, wetValue, 0, 100) followed by
constrain(percent, 0, 100). When dryValue = wetValue the map expression
divides by zero (undefined behavior in C, before any clamping), modelled
as none. -/
def percentage (raw dryValue wetValue : Int) : Option Int :=
  if dryValue = wetValue then none
  else some (constrain (map raw dryValue wetValue 0 100) 0 100)

/-- Reduction of an integer to the 32-bit signed value the target
stores: Arduino long on ESP32 is a 32-bit two-complement word, so an
overflowing intermediate wraps modulo 2 to the 32. -/
def wrap32 (n : Int) : Int :=
  (n + 2147483648) % 4294967296 - 2147483648

/-- The map function with the arithmetic width of the source: every
intermediate of (x - in_min) * (out_max - out_min) / (in_max - in_min)
+ out_min is a 32-bit long, so each operation result passes through
wrap32. The plain map above is the exact-integer idealization of this,
and agrees with it whenever no intermediate exceeds 32 bits. -/
def map32 (x inMin inMax outMin outMax : Int) : Int :=
  wrap32 (Int.tdiv (wrap32 (wrap32 (x - inMin) * wrap32 (outMax - outMin)))
    (wrap32 (inMax - inMin)) + outMin)

/-- The percentage computation at the arithmetic width of the source:
map32 followed by constrain, with the division by zero of a degenerate
calibration pair modelled as none. -/
def percentage32 (raw dryValue wetValue : Int) : Option Int :=
  if dryValue = wetValue then none
  else some (constrain (map32 raw dryValue wetValue 0 100) 0 100)

/-- A decoded inbound MQTT command document. decodeOk is the result of
deserializeJson; a field that is absent (or whose document failed to
decode) reads back as a null pointer, modelled as none. The duration
field is in seconds. -/
structure Cmd where
  decodeOk : Bool
  action : Option String
  zone : Option String
  duration : Option Nat
deriving DecidableEq

/-- Observable outcome of the smart_garden.cpp messageCallback: final
pump state, whether publishSensorData was reached, and the milliseconds
spent blocked inside delay. -/
structure SGResult where
  pump : Bool
  published : Bool
  blockedMs : Nat
deriving DecidableEq

/-- messageCallback of smart_garden.cpp. Decode errors and a missing
action field return early (no publish). WATER_ON drives the pump HIGH
and, when a duration d is present, calls delay(d * 1000) and then drives
the pump LOW before publishing. WATER_OFF drives it LOW. STATUS and
unrecognized actions only log. All non-early-return paths end in
publishSensorData. -/
def sgCallback (c : Cmd) (pump0 : Bool) : SGResult :=
  if c.decodeOk = false then ⟨pump0, false, 0⟩
  else
    match c.action with
    | none => ⟨pump0, false, 0⟩
    | some a =>
      if a = "WATER_ON" then
        match c.duration with
        | some d => ⟨false, true, d * 1000⟩
        | none => ⟨true, true, 0⟩
      else if a = "WATER_OFF" then ⟨false, true, 0⟩
      else if a = "STATUS" then ⟨pump0, true, 0⟩
      else ⟨pump0, true, 0⟩

/-- The ZONE_NAMES array of the multi-zone sketch. -/
def ZONE_NAMES : List String := ["Vegetables", "Flowers", "Herbs"]

/-- The zone lookup loop of the multi-zone messageCallback: first index i
with strcmp(zone, ZONE_NAMES[i]) == 0, none when the loop leaves
zoneIndex at -1. -/
def findZoneIndex (z : String) : Option Nat :=
  ZONE_NAMES.findIdx? (fun nm => nm = z)

/-- Observable outcome of the multi-zone messageCallback: final pump
states (one per zone, in ZONE_NAMES order), whether
publishMultiSensorData was reached, whether the handler took the
zone-not-found early return, and milliseconds blocked in delay. -/
structure MResult where
  pumps : List Bool
  published : Bool
  unknownZone : Bool
  blockedMs : Nat
deriving DecidableEq

/-- messageCallback of the multi-zone sketch. deserializeJson is not
checked for errors. The zone field goes straight into strcmp inside the
lookup loop, so a missing zone dereferences null (none). An unresolved
zone name logs and returns before publishing. Otherwise the action field
goes into strcmp, so a missing action dereferences null (none). WATER_ON
with a duration d drives the pump HIGH, blocks in delay(d * 1000), then
drives it LOW. ALL_ON and ALL_OFF loop over every pump. Every path past
the zone check ends in publishMultiSensorData. -/
def multiCallback (c : Cmd) (pumps : List Bool) : Option MResult :=
  match c.zone with
  | none => none
  | some z =>
    match findZoneIndex z with
    | none => some ⟨pumps, false, true, 0⟩
    | some i =>
      match c.action with
      | none => none
      | some a =>
        if a = "WATER_ON" then
          match c.duration with
          | some d => some ⟨pumps.set i false, true, false, d * 1000⟩
          | none => some ⟨pumps.set i true, true, false, 0⟩
        else if a = "WATER_OFF" then some ⟨pumps.set i false, true, false, 0⟩
        else if a = "ALL_ON" then some ⟨pumps.map (fun _ => true), true, false, 0⟩
        else if a = "ALL_OFF" then some ⟨pumps.map (fun _ => false), true, false, 0⟩
        else some ⟨pumps, true, false, 0⟩

/-- Observable outcome of the second single-zone messageCallback. -/
structure SZResult where
  pump : Bool
  published : Bool
  blockedMs : Nat
deriving DecidableEq

/-- messageCallback of the second single-zone sketch in the unnamed
file. deserializeJson is not checked for errors and the action field
goes straight into strcmp, so a missing action dereferences null (none).
There are no early returns: every non-crashing path ends in
publishSensorData. -/
def szCallback (c : Cmd) (pump0 : Bool) : Option SZResult :=
  match c.action with
  | none => none
  | some a =>
    if a = "WATER_ON" then
      match c.duration with
      | some d => some ⟨false, true, d * 1000⟩
      | none => some ⟨true, true, 0⟩
    else if a = "WATER_OFF" then some ⟨false, true, 0⟩
    else some ⟨pump0, true, 0⟩

/-! Helper lemmas about the arithmetic primitives. -/

/-- C truncating division is monotone in the dividend when the divisor
is positive. -/
theorem tdiv_le_tdiv_of_le {a b c : Int} (hc : 0 < c) (hab : a ≤ b) :
    Int.tdiv a c ≤ Int.tdiv b c := by
  rcases le_or_lt 0 a with ha | ha
  · rw [Int.tdiv_eq_ediv ha hc.le, Int.tdiv_eq_ediv (ha.trans hab) hc.le]
    exact Int.ediv_le_ediv hc hab
  · rcases le_or_lt 0 b with hb | hb
    · have h1 : Int.tdiv a c ≤ 0 := by
        have := Int.tdiv_nonneg (a := -a) (b := c) (by omega) hc.le
        rw [Int.neg_tdiv] at this
        omega
      have h2 : 0 ≤ Int.tdiv b c := Int.tdiv_nonneg hb hc.le
      omega
    · have key : Int.tdiv (-b) c ≤ Int.tdiv (-a) c := by
        rw [Int.tdiv_eq_ediv (by omega) hc.le,
          Int.tdiv_eq_ediv (by omega : (0 : Int) ≤ -a) hc.le]
        exact Int.ediv_le_ediv hc (by omega)
      rw [Int.neg_tdiv, Int.neg_tdiv] at key
      omega

/-- wrap32 is the identity on values already inside the 32-bit signed
range. -/
theorem wrap32_eq_self {n : Int} (h1 : -2147483648 ≤ n) (h2 : n ≤ 2147483647) :
    wrap32 n = n := by
  unfold wrap32
  omega

/-- C truncating division never grows the magnitude of the dividend:
with the dividend inside a symmetric interval around zero and a nonzero
divisor, the quotient stays inside that interval. -/
theorem tdiv_bounds {n s M : Int} (hM : 0 ≤ M) (h1 : -M ≤ n) (h2 : n ≤ M)
    (hs : s ≠ 0) : -M ≤ Int.tdiv n s ∧ Int.tdiv n s ≤ M := by
  have key : ∀ m t : Int, 0 < t → -M ≤ m → m ≤ M →
      -M ≤ Int.tdiv m t ∧ Int.tdiv m t ≤ M := by
    intro m t ht hm1 hm2
    have hMt : Int.tdiv M t ≤ M := by
      rw [Int.tdiv_eq_ediv hM ht.le]
      exact Int.ediv_le_self t hM
    have hup : Int.tdiv m t ≤ Int.tdiv M t := tdiv_le_tdiv_of_le ht hm2
    have hlo : Int.tdiv (-M) t ≤ Int.tdiv m t := tdiv_le_tdiv_of_le ht hm1
    rw [Int.neg_tdiv] at hlo
    omega
  rcases lt_or_gt_of_ne hs with hneg | hpos
  · have hrw : s = -(-s) := by ring
    rw [hrw, Int.tdiv_neg]
    have := key n (-s) (by omega) h1 h2
    omega
  · exact key n s hpos h1 h2

/-- The constrain function lands inside the interval when low ≤ high. -/
theorem constrain_mem {amt low high : Int} (h : low ≤ high) :
    low ≤ constrain amt low high ∧ constrain amt low high ≤ high := by
  unfold constrain
  split_ifs <;> omega

/-- The constrain function is monotone in its first argument when the
interval is not inverted. -/
theorem constrain_mono {x y low high : Int} (hlh : low ≤ high) (h : x ≤ y) :
    constrain x low high ≤ constrain y low high := by
  unfold constrain
  split_ifs <;> omega

/-- The map expression with output range 0..100 is monotone as the raw
value moves from dryValue toward wetValue, in either orientation. -/
theorem map_mono_along (d w r1 r2 : Int)
    (hdir : (d < w ∧ r1 ≤ r2) ∨ (w < d ∧ r2 ≤ r1)) :
    map r1 d w 0 100 ≤ map r2 d w 0 100 := by
  rcases hdir with ⟨hlt, hr⟩ | ⟨hlt, hr⟩
  · unfold map
    have h1 : (r1 - d) * (100 - 0) ≤ (r2 - d) * (100 - 0) := by omega
    have h2 := tdiv_le_tdiv_of_le (c := w - d) (by omega) h1
    omega
  · unfold map
    have hw : w - d = -(d - w) := by ring
    rw [hw, Int.tdiv_neg, Int.tdiv_neg]
    have h1 : (r2 - d) * (100 - 0) ≤ (r1 - d) * (100 - 0) := by omega
    have h2 := tdiv_le_tdiv_of_le (c := d - w) (by omega) h1
    omega

/-- When the interpolation numerator and the span both fit in the 32-bit
signed range, the 32-bit map agrees with its exact-integer model. -/
theorem map32_eq_map (x a b : Int) (hs : b - a ≠ 0)
    (hnum1 : -2147483647 ≤ (x - a) * 100) (hnum2 : (x - a) * 100 ≤ 2147483647)
    (hspan1 : -2147483647 ≤ b - a) (hspan2 : b - a ≤ 2147483647) :
    map32 x a b 0 100 = map x a b 0 100 := by
  have hq := tdiv_bounds (M := 2147483647) (by omega) hnum1 hnum2 hs
  have e1 : wrap32 (x - a) = x - a := wrap32_eq_self (by omega) (by omega)
  have e2 : wrap32 (100 : Int) = 100 := by decide
  have e3 : wrap32 (b - a) = b - a := wrap32_eq_self (by omega) (by omega)
  unfold map32 map
  norm_num [e1, e2, e3]
  have e4 : wrap32 ((x - a) * 100) = (x - a) * 100 :=
    wrap32_eq_self (by omega) (by omega)
  rw [e4]
  exact wrap32_eq_self (by omega) (by omega)

/-! Claim theorems. -/

/-- C1: the claim states that handling a duration-bounded ON command
never blocks the control loop and performs no timed wait proportional to
the caller-supplied duration. The code violates this: for every duration
d, the smart_garden.cpp callback on a WATER_ON command carrying duration
d blocks inside delay for exactly d * 1000 milliseconds before the
callback returns, a timed wait directly proportional to the
caller-supplied duration. -/
theorem C1_handler_blocks_proportionally (d : Nat) (p : Bool) :
    (sgCallback ⟨true, some "WATER_ON", none, some d⟩ p).blockedMs = d * 1000 := rfl

/-- C2: the claim states that after dispatching ON with duration 5 at t0
the actuation flag stays true through tick(t0 + 4) and is turned off by
a later tick of the Timer Reconciler, not inside the dispatch call. The
code violates this: no tick or reconciler exists, and the callback
itself performs the auto-off, returning with the pump already LOW after
having blocked for 5000 milliseconds inside the dispatch path. -/
theorem C2_auto_off_inside_dispatch (p : Bool) :
    (sgCallback ⟨true, some "WATER_ON", none, some 5⟩ p).pump = false ∧
    (sgCallback ⟨true, some "WATER_ON", none, some 5⟩ p).blockedMs = 5000 :=
  ⟨rfl, rfl⟩

/-- C3 counterexample: a decode failure makes the main callback return
before publishSensorData, and an unknown zone makes the multi-zone
callback return before publishMultiSensorData, so it is false that every
inbound command triggers a telemetry publish. -/
theorem C3_counterexample :
    (sgCallback ⟨false, none, none, none⟩ false).published = false ∧
    multiCallback ⟨true, some "WATER_ON", some "Patio", some 5⟩ [false, false, false] =
      some ⟨[false, false, false], false, true, 0⟩ := by
  decide

/-- C3 amended: a telemetry publish is triggered after command handling
for every command that passes the early validation returns: in the main
callback, any command that decodes successfully and carries an action
field (applied, STATUS, or unrecognized alike); in the multi-zone
callback, any command whose zone resolves and whose action field is
present. Decode failures, missing action, and unknown zone return early
without publishing. -/
theorem C3_amended_publish :
    (∀ c p, c.decodeOk = true → c.action.isSome = true →
      (sgCallback c p).published = true) ∧
    (∀ c ps z i a, c.zone = some z → findZoneIndex z = some i →
      c.action = some a →
      ∃ r, multiCallback c ps = some r ∧ r.published = true) := by
  constructor
  · intro c p h1 h2
    obtain ⟨a, ha⟩ := Option.isSome_iff_exists.mp h2
    cases hd : c.duration <;>
      simp [sgCallback, h1, ha, hd] <;> split_ifs <;> rfl
  · intro c ps z i a hz hfind hact
    cases hd : c.duration <;>
      simp [multiCallback, hz, hfind, hact, hd] <;> split_ifs <;> simp

/-- C3 amended, witness at concrete inputs. -/
theorem C3_amended_publish_witness :
    (sgCallback ⟨true, some "STATUS", none, none⟩ false).published = true ∧
    (∃ r, multiCallback ⟨true, some "WATER_OFF", some "Flowers", none⟩
        [true, true, true] = some r ∧ r.published = true) :=
  ⟨C3_amended_publish.1 ⟨true, some "STATUS", none, none⟩ false rfl rfl,
   C3_amended_publish.2 ⟨true, some "WATER_OFF", some "Flowers", none⟩
     [true, true, true] "Flowers" 1 "WATER_OFF" rfl (by decide) rfl⟩

/-- C4 counterexample: in the second single-zone callback a payload with
no action field (for example a malformed document, which decodes to an
empty one) reaches strcmp with a null pointer, modelled as none: the
control loop halts, so it is false that a malformed or action-less
command never halts the loop. -/
theorem C4_counterexample :
    szCallback ⟨true, none, none, none⟩ false = none := rfl

/-- C4 amended: in the main callback a decode failure, a missing action,
or an unrecognized action mutates no actuator state and returns normally
(the embedding is total for it); the part_000 callbacks pass the decoded
action field to strcmp with no null check, so a command without that
field dereferences null and halts the loop. -/
theorem C4_amended_no_mutation :
    (∀ c p, (c.decodeOk = false ∨ c.action = none ∨
        (∃ a, c.action = some a ∧ a ≠ "WATER_ON" ∧ a ≠ "WATER_OFF")) →
      (sgCallback c p).pump = p) ∧
    (∀ c p, c.action = none → szCallback c p = none) := by
  constructor
  · rintro c p (h | h | ⟨a, ha, h1, h2⟩)
    · simp [sgCallback, h]
    · cases hd : c.decodeOk <;> simp [sgCallback, h, hd]
    · cases hd : c.decodeOk <;> simp [sgCallback, ha, hd, h1, h2]
  · intro c p h
    simp [szCallback, h]

/-- C4 amended, witness at concrete inputs. -/
theorem C4_amended_no_mutation_witness :
    (sgCallback ⟨true, some "REBOOT", none, none⟩ true).pump = true ∧
    szCallback ⟨false, none, none, none⟩ true = none :=
  ⟨C4_amended_no_mutation.1 _ _
      (Or.inr (Or.inr ⟨"REBOOT", rfl, by decide, by decide⟩)),
   C4_amended_no_mutation.2 _ _ rfl⟩

/-- C5: a command whose zone field is present but does not resolve in
ZONE_NAMES takes the zone-not-found early return of the multi-zone
callback: the unknownZone outcome is reported, every pump state is left
unchanged, nothing blocks, and (vacuously, since the code keeps no
deadlines) no deadline changes. This holds for ON and OFF and for every
other action, because the zone check precedes the action dispatch. -/
theorem C5_unknown_zone_ignored (c : Cmd) (ps : List Bool) (z : String)
    (hz : c.zone = some z) (hnf : findZoneIndex z = none) :
    multiCallback c ps = some ⟨ps, false, true, 0⟩ := by
  simp [multiCallback, hz, hnf]

/-- C5, witness at a concrete input. -/
theorem C5_unknown_zone_ignored_witness :
    multiCallback ⟨true, some "WATER_ON", some "nonexistent", some 5⟩
      [false, true, false] = some ⟨[false, true, false], false, true, 0⟩ :=
  C5_unknown_zone_ignored _ _ "nonexistent" rfl (by decide)

/-- C6: for every integer raw value and every calibration pair in either
orientation (dryValue above or below wetValue, hence distinct), the
percentage computation succeeds and returns an integer in 0..100. -/
theorem C6_percentage_in_range (raw d w : Int) (h : d ≠ w) :
    ∃ p, percentage raw d w = some p ∧ 0 ≤ p ∧ p ≤ 100 := by
  refine ⟨constrain (map raw d w 0 100) 0 100, by simp [percentage, h], ?_, ?_⟩
  · exact (constrain_mem (by omega)).1
  · exact (constrain_mem (by omega)).2

/-- C6, witness at a concrete input. -/
theorem C6_percentage_in_range_witness :
    ∃ p, percentage 1500 2000 1000 = some p ∧ 0 ≤ p ∧ p ≤ 100 :=
  C6_percentage_in_range 1500 2000 1000 (by decide)

/-- C7 counterexample: on the 32-bit arithmetic of the source the claim
fails inside its stated domain. With calibration pair (0, 40000000) in
the increasing orientation, both raw values between the pair, moving the
raw value one step toward wetValue drops the percentage from 53 to 0:
the product 21474837 * 100 overflows the 32-bit long and wraps
negative, so the percentage is not non-decreasing for every calibration
pair. -/
theorem C7_counterexample :
    percentage32 21474836 0 40000000 = some 53 ∧
    percentage32 21474837 0 40000000 = some 0 ∧
    (0 : Int) < 40000000 ∧ (21474836 : Int) ≤ 21474837 ∧
    (21474837 : Int) ≤ 40000000 ∧ ¬ (53 : Int) ≤ 0 := by
  decide

/-- C7 amended: the percentage is non-decreasing as the raw value moves
from dryValue toward wetValue, for both orientations d < w (r1 before r2
means r1 ≤ r2) and w < d (r1 before r2 means r2 ≤ r1), under the integer
truncation of the interpolation and through the final clamping, provided
the interpolation stays inside the 32-bit long arithmetic of the source:
the numerators (r - d) * 100 and the span w - d must have magnitude at
most 2147483647. -/
theorem C7_amended_monotone (d w r1 r2 : Int)
    (hdir : (d < w ∧ r1 ≤ r2) ∨ (w < d ∧ r2 ≤ r1))
    (h1a : -2147483647 ≤ (r1 - d) * 100) (h1b : (r1 - d) * 100 ≤ 2147483647)
    (h2a : -2147483647 ≤ (r2 - d) * 100) (h2b : (r2 - d) * 100 ≤ 2147483647)
    (h3a : -2147483647 ≤ w - d) (h3b : w - d ≤ 2147483647) :
    ∃ p1 p2, percentage32 r1 d w = some p1 ∧ percentage32 r2 d w = some p2 ∧
      p1 ≤ p2 := by
  have hne : d ≠ w := by rcases hdir with ⟨h, _⟩ | ⟨h, _⟩ <;> omega
  have hs : w - d ≠ 0 := by omega
  have e1 := map32_eq_map r1 d w hs h1a h1b h3a h3b
  have e2 := map32_eq_map r2 d w hs h2a h2b h3a h3b
  refine ⟨constrain (map32 r1 d w 0 100) 0 100,
    constrain (map32 r2 d w 0 100) 0 100,
    by simp [percentage32, hne], by simp [percentage32, hne], ?_⟩
  rw [e1, e2]
  exact constrain_mono (by omega) (map_mono_along d w r1 r2 hdir)

/-- C7 amended, witness at concrete inputs along the decreasing
orientation. -/
theorem C7_amended_monotone_witness :
    ∃ p1 p2, percentage32 1800 2000 1000 = some p1 ∧
      percentage32 1200 2000 1000 = some p2 ∧ p1 ≤ p2 :=
  C7_amended_monotone 2000 1000 1800 1200 (Or.inr ⟨by decide, by decide⟩)
    (by decide) (by decide) (by decide) (by decide) (by decide) (by decide)

/-- C8: with exact integer arithmetic, calibration (2000, 1000) at raw
1500 yields 50 percent, and calibration (1800, 900) at raw 1350 yields
50 percent. -/
theorem C8_midpoint_scenario :
    percentage 1500 2000 1000 = some 50 ∧ percentage 1350 1800 900 = some 50 := by
  decide

/-- C9: the interpolation divides by the span wetValue - dryValue, so
the computation is total exactly when the calibration pair is
non-degenerate: for dryValue = wetValue it divides by zero (undefined
behavior, before any clamping), and for dryValue distinct from wetValue
it always produces a value. -/
theorem C9_span_division :
    (∀ raw d, percentage raw d d = none) ∧
    (∀ raw d w, d ≠ w → (percentage raw d w).isSome = true) := by
  constructor
  · intro raw d
    simp [percentage]
  · intro raw d w h
    simp [percentage, h]

/-- C9, witness at concrete inputs. -/
theorem C9_span_division_witness :
    percentage 1500 1000 1000 = none ∧ (percentage 1500 2000 1000).isSome = true :=
  ⟨C9_span_division.1 1500 1000, C9_span_division.2 1500 2000 1000 (by decide)⟩

/-- C10: the multi-zone callback passes the decoded zone field to strcmp
with no null check, so a command without a zone field crashes (none);
the second single-zone callback does the same with the action field, so
a command without an action field crashes; and when the action field is
present the single-zone callback is total. -/
theorem C10_null_field_crash :
    (∀ c ps, c.zone = none → multiCallback c ps = none) ∧
    (∀ c p, c.action = none → szCallback c p = none) ∧
    (∀ c p a, c.action = some a → (szCallback c p).isSome = true) := by
  refine ⟨?_, ?_, ?_⟩
  · intro c ps h
    simp [multiCallback, h]
  · intro c p h
    simp [szCallback, h]
  · intro c p a h
    cases hd : c.duration <;> simp [szCallback, h, hd] <;> split_ifs <;> rfl

/-- C10, witness at concrete inputs. -/
theorem C10_null_field_crash_witness :
    multiCallback ⟨true, some "ALL_ON", none, none⟩ [false, false, false] = none ∧
    szCallback ⟨true, none, none, some 5⟩ true = none ∧
    (szCallback ⟨true, some "WATER_OFF", none, none⟩ true).isSome = true :=
  ⟨C10_null_field_crash.1 _ _ rfl, C10_null_field_crash.2.1 _ _ rfl,
   C10_null_field_crash.2.2 _ _ "WATER_OFF" rfl⟩

end SmartGarden
